import Mathlib

/-!
Verification of the ThingsBoard HTTP device client (`tb_device_http.py`).

A shallow embedding of the client's data model and operations:

* JSON payloads are the inductive `J`; Python dicts are association lists
  (`Dict`) with Python's `dict` operations (`lookup`, `pop`, `update`).
  Python dicts never hold duplicate keys, so `pop` removing every binding of
  the key coincides with Python's removal of the unique binding.
* The HTTP transport (`requests`) is external: each request's outcome is an
  input (`PostOutcome`), mirroring the exceptions `requests` raises for
  connection failures and timeouts, and `Response.raise_for_status` raising
  `HTTPError` exactly for statuses in 400..599.
* Worker threads are modelled by explicit state: `PyThread.start` follows
  `threading.Thread.start`, which raises `RuntimeError` on a thread whose
  `start` was already called.  Loop bodies become step functions on state;
  values of the shared `threading.Event` stop flags observed at each check
  are inputs to the step functions.
-/

set_option autoImplicit false

namespace TB

/-- JSON values, as far as the client manipulates them: numbers (the `ts`
field), strings (the `endpoint` routing value), and objects. -/
inductive J where
  | num (n : Nat) : J
  | str (s : String) : J
  | obj (fields : List (String × J)) : J

/-- A Python `dict` with string keys, as an association list in insertion
order (Python 3.7+ dicts preserve insertion order). -/
abbrev Dict := List (String × J)

namespace Dict

/-- Python `d[k]` as an option: the value of the first binding of `k`. -/
def lookup (k : String) : Dict → Option J
  | [] => none
  | (k₁, v) :: rest => if k₁ = k then some v else lookup k rest

/-- The dict with every binding of `k` removed.  Python dicts have unique
keys, so this is Python's deletion of the one binding of `k`. -/
def erase : Dict → String → Dict
  | [], _ => []
  | (k₁, v) :: rest, k => if k₁ = k then erase rest k else (k₁, v) :: erase rest k

/-- Python `d.pop(k)`: the value bound to `k` (none encodes `KeyError`) together
with the dict with `k` removed. -/
def pop (d : Dict) (k : String) : Option J × Dict :=
  (d.lookup k, d.erase k)

/-- Python `d.update({k: v})` for a single key: overwrite the first binding of `k`
in place if present, else append the new binding (Python insertion order). -/
def update (d : Dict) (k : String) (v : J) : Dict :=
  match d with
  | [] => [(k, v)]
  | (k₁, v₁) :: rest =>
      if k₁ = k then (k₁, v) :: rest else (k₁, v₁) :: update rest k v

theorem lookup_nil (k : String) : lookup k [] = none := rfl

theorem lookup_cons (k k₁ : String) (v : J) (rest : Dict) :
    lookup k ((k₁, v) :: rest) = if k₁ = k then some v else lookup k rest := rfl

/-- Looking up a different key is unaffected by `erase`. -/
theorem lookup_erase_ne (d : Dict) (k k₁ : String) (h : k₁ ≠ k) :
    (d.erase k).lookup k₁ = d.lookup k₁ := by
  induction d with
  | nil => rfl
  | cons kv rest ih =>
      obtain ⟨k₂, v⟩ := kv
      by_cases hk : k₂ = k
      · have hne : ¬ k₂ = k₁ := fun h₁ => h (h₁ ▸ hk)
        simp [erase, hk, lookup_cons, hne, ih, Ne.symm h]
      · by_cases hk₁ : k₂ = k₁ <;> simp [erase, hk, lookup_cons, hk₁, ih, h]

/-- The erased key is gone. -/
theorem lookup_erase_self (d : Dict) (k : String) :
    (d.erase k).lookup k = none := by
  induction d with
  | nil => rfl
  | cons kv rest ih =>
      obtain ⟨k₂, v⟩ := kv
      by_cases hk : k₂ = k <;> simp [erase, hk, lookup_cons, ih]

/-- Appending a binding of a key absent from `d` leaves other lookups
unchanged and binds that key. -/
theorem lookup_append_single (d : Dict) (k k₁ : String) (v : J) :
    lookup k₁ (d ++ [(k, v)]) =
      if (d.lookup k₁).isSome then d.lookup k₁
      else if k = k₁ then some v else none := by
  induction d with
  | nil => simp [lookup, lookup_cons]
  | cons kv rest ih =>
      obtain ⟨k₂, v₂⟩ := kv
      by_cases hk : k₂ = k₁
      · simp [lookup_cons, hk]
      · simpa [lookup_cons, hk] using ih

end Dict

/-! ## Transport model

`requests.Session.post`/`get` either raises `Timeout`, raises
`ConnectionError`, or returns a `Response`; `Response.raise_for_status`
raises `HTTPError` exactly for status codes 400..599.  A response body is
`none` for empty content, `some j` for content that decodes to `j` (JSON
decoding of well-formed bodies is an out-of-scope collaborator). -/

/-- An HTTP response: status code and (decoded) body, `none` = empty body. -/
structure Response where
  status : Nat
  content : Option J

/-- The `requests` exceptions the client distinguishes. -/
inductive ReqError where
  | timeout : ReqError
  | connectionError : ReqError
  | httpError (status : Nat) : ReqError
  deriving DecidableEq, Repr

/-- The outcome of one HTTP request issued through the transport. -/
inductive PostOutcome where
  | timeout : PostOutcome
  | connError : PostOutcome
  | response (r : Response) : PostOutcome

/-- Model of `Response.raise_for_status`: raises `HTTPError` iff the status code is a
4xx client error or 5xx server error. -/
def raise_for_status (r : Response) : Except ReqError Unit :=
  if 400 ≤ r.status ∧ r.status < 600 then .error (.httpError r.status) else .ok ()

/-- Model of `publish_data(data, endpoint)`: POST, `raise_for_status`, then
`response.json() if response.content else {}`.  The transport outcome of the
POST is the argument `o`. -/
def publish_data (o : PostOutcome) : Except ReqError J :=
  match o with
  | .timeout => .error .timeout
  | .connError => .error .connectionError
  | .response r =>
      match raise_for_status r with
      | .error e => .error e
      | .ok _ => .ok (r.content.getD (J.obj []))

/-- Model of `test_connection`: publish empty telemetry; `except (Timeout,
ConnectionError)` and `except HTTPError` turn the failure into `False`
(after logging), the `else` branch yields `True`.  An exception of any other
kind would propagate (`.error`), but the transport taxonomy has no other
kind. -/
def test_connection (o : PostOutcome) : Except ReqError Bool :=
  match publish_data o with
  | .error .timeout => .ok false
  | .error .connectionError => .ok false
  | .error (.httpError _) => .ok false
  | .ok _ => .ok true

/-! ## Thread and worker-state model

`TBHTTPClient.__init__` creates one `threading.Thread` per worker role and
never replaces it.  `threading.Thread.start` raises `RuntimeError` when
called on a thread whose `start` has already been called; otherwise it marks
the thread started and spawns the consumer. -/

/-- The errors the Python runtime itself raises in the modelled paths. -/
inductive PyError where
  | runtimeError : PyError
  deriving DecidableEq, Repr

/-- A `threading.Thread`: whether `start` has already been called on it. -/
structure PyThread where
  started : Bool
  deriving DecidableEq, Repr

/-- Model of `threading.Thread.start`: raises `RuntimeError` if already started,
otherwise marks the thread started (spawning its target). -/
def PyThread.start (t : PyThread) : Except PyError PyThread :=
  if t.started then .error .runtimeError else .ok { started := true }

/-- The `self.worker["publish"]` entry: its thread, its stop event, and its
queue of pending tasks (front of the list = front of the FIFO). -/
structure PublishWorker where
  thread : PyThread
  stop_event : Bool
  queue : List Dict

/-- A `self.worker["attributes"]` / `self.worker["rpc"]` entry: thread, stop
event, and the optional registered callback (an opaque identifier). -/
structure SubWorker where
  thread : PyThread
  stop_event : Bool
  callback : Option Nat
  deriving DecidableEq, Repr

/-- Model of `start_publish_worker`: clear the stop event, then `thread.start()`.
The returned state reflects the side effects performed before any raise. -/
def start_publish_worker (w : PublishWorker) : PublishWorker × Except PyError Unit :=
  let w₁ : PublishWorker := { w with stop_event := false }
  match w₁.thread.start with
  | .ok t => ({ w₁ with thread := t }, .ok ())
  | .error e => (w₁, .error e)

/-- Model of `stop_publish_worker`: set the stop event; nothing else — in particular
no join and no queue wait. -/
def stop_publish_worker (w : PublishWorker) : PublishWorker :=
  { w with stop_event := true }

/-- Common model of `subscribe_to_attributes` and `subscribe_to_rpc` (identical code on their
own worker entry): register the callback if one is given, clear the stop
event, then `thread.start()`. -/
def subscribe (cb : Option Nat) (w : SubWorker) : SubWorker × Except PyError Unit :=
  let w₁ : SubWorker :=
    match cb with
    | some c => { w with callback := some c }
    | none => w
  let w₂ : SubWorker := { w₁ with stop_event := false }
  match w₂.thread.start with
  | .ok t => ({ w₂ with thread := t }, .ok ())
  | .error e => (w₂, .error e)

/-! ## Publish worker loop

One iteration of the `while True` loop in `__publish_worker`:
`queue.get(timeout=1)` returns the head immediately when the queue is
non-empty; on an empty queue it waits one polling interval (1 s), raises
`queue.Empty`, and only then is the stop event checked.  A dequeued task has
its `"endpoint"` key popped (a missing key would raise `KeyError` outside
the `try`, killing the thread); `publish_data` failure re-adds the endpoint,
re-enqueues at the tail and sleeps 1 s; success discards the task
(`task_done`). The success of the delivery attempt is the input `ok`. -/

/-- The observable result of one iteration of the publish worker loop. -/
inductive PubIter where
  /-- Empty queue and stop event set: `break` out of the loop. -/
  | exitLoop : PubIter
  /-- Empty queue, stop event clear: `continue` after the 1 s get timeout. -/
  | idle : PubIter
  /-- Delivery succeeded: `body` was published to `endpoint`, task discarded,
  remaining queue `q`. -/
  | published (body : Dict) (endpoint : J) (q : List Dict) : PubIter
  /-- Delivery failed: new queue `q` (task back at the tail), then sleep 1 s. -/
  | requeued (q : List Dict) : PubIter
  /-- The dequeued task had no `"endpoint"` key: uncaught `KeyError`. -/
  | crashedKeyError : PubIter

/-- One iteration of the publish worker loop, given the delivery outcome
`ok` for the attempt (ignored when the queue is empty), the stop-event value
observed at the check, and the queue contents. -/
def publish_worker_iteration (ok : Bool) (stop : Bool) (q : List Dict) : PubIter :=
  match q with
  | [] => if stop then .exitLoop else .idle
  | task :: rest =>
      match task.pop "endpoint" with
      | (none, _) => .crashedKeyError
      | (some endpoint, task₁) =>
          if ok then .published task₁ endpoint rest
          else .requeued (rest ++ [task₁.update "endpoint" endpoint])

/-! ## `send_telemetry` -/

/-- The value `int(timestamp.replace(tzinfo=timezone.utc).timestamp()*1000)` for a
timestamp of `micros` microseconds since the epoch (its wall-clock fields
read as UTC, which is what `replace(tzinfo=utc)` effects): truncating
division by 1000. -/
def epoch_millis (micros : Nat) : Nat :=
  micros / 1000

/-- The telemetry payload `{"ts": ..., "values": telemetry}` built by
`send_telemetry`. -/
def telemetry_payload (telemetry : J) (micros : Nat) : Dict :=
  [("ts", .num (epoch_millis micros)), ("values", telemetry)]

/-- The observable effects of one `send_telemetry` call: synchronous
publishes (body and endpoint of each POST), tasks put on the publish queue,
and the returned/raised outcome. -/
structure SendResult where
  posts : List (Dict × String)
  queuePuts : List Dict
  result : Except ReqError Unit

/-- Model of `send_telemetry(telemetry, timestamp, queued)`: build the payload; if
`queued`, add `"endpoint": "telemetry"` and put it on the publish queue
(never touching the transport); else publish synchronously, the transport
outcome of that one POST being `o`. -/
def send_telemetry (telemetry : J) (micros : Nat) (queued : Bool)
    (o : PostOutcome) : SendResult :=
  let payload := telemetry_payload telemetry micros
  if queued then
    { posts := []
      queuePuts := [payload.update "endpoint" (.str "telemetry")]
      result := .ok () }
  else
    { posts := [(payload, "telemetry")]
      queuePuts := []
      result := (publish_data o).map fun _ => () }

/-! ## Subscription worker loop

`__subscription_worker`'s `while not stop_event.is_set()` loop: issue the
long poll, re-check the stop event, treat 408 and 504 as `continue`, then
`raise_for_status` and `callback(response.json())`.  `response.json()` is
not guarded here (unlike `publish_data`): on a body that does not decode —
in the model, an empty body (`content = none`) — it raises a JSON decode
error before the callback is invoked.  The stop event is a shared
`threading.Event` that `unsubscribe_*` can set (and `subscribe_*` clear)
from other threads at any instant, so the values observed at each check —
and the value left behind if an exception escapes the loop, skipping the
`stop_event.clear()` that follows it — are inputs. -/

/-- What one iteration of the subscription loop does. -/
inductive SubIter where
  /-- Stop event observed set (at the loop head or right after the poll
  returned): leave the loop without touching the response. -/
  | breakStop : SubIter
  /-- Status 408 or 504: `continue`, no callback, no error. -/
  | again : SubIter
  /-- The call `raise_for_status` raised: the exception escapes the loop. -/
  | raised (e : ReqError) : SubIter
  /-- The call `response.json()` raised on a body that does not decode:
  the exception escapes the loop before the callback is invoked. -/
  | jsonRaised : SubIter
  /-- Callback invoked with the decoded response body. -/
  | callbackInvoked (body : J) : SubIter

/-- One iteration of the subscription loop: `stopAtHead` and
`stopAfterPoll` are the stop-event values observed at the two checks, `r`
the long-poll response. -/
def subscription_iteration (stopAtHead stopAfterPoll : Bool) (r : Response) : SubIter :=
  if stopAtHead then .breakStop
  else if stopAfterPoll then .breakStop
  else if r.status = 408 then .again
  else if r.status = 504 then .again
  else
    match raise_for_status r with
    | .error e => .raised e
    | .ok _ =>
        match r.content with
        | none => .jsonRaised
        | some body => .callbackInvoked body

/-- The adversary-scheduled observations of one subscription-loop
iteration: the stop-event values at the two checks, the poll response,
whether the callback raises on this body, and the stop-event value at the
instant an exception (from `raise_for_status` or the callback) escapes. -/
structure SubObs where
  stopAtHead : Bool
  response : Response
  stopAfterPoll : Bool
  callbackThrows : Bool
  stopAtRaise : Bool

/-- How a run of the subscription loop ended, with the stop event's final
value.  A normal exit runs the trailing `stop_event.clear()`; an exception
propagates out of `__subscription_worker` without reaching it. -/
inductive SubExit where
  /-- The loop exited normally and `stop_event.clear()` ran;
  `finalFlag` is the stop event's value afterwards. -/
  | exited (finalFlag : Bool) : SubExit
  /-- An exception escaped the loop (killing the worker thread);
  `finalFlag` is the stop event's value it leaves behind. -/
  | raised (finalFlag : Bool) : SubExit
  /-- The observation trace ran out with the loop still going. -/
  | outOfFuel : SubExit
  deriving DecidableEq, Repr

/-- A run of the subscription loop over a finite trace of observations,
using `subscription_iteration` for each round. -/
def subscription_run : List SubObs → SubExit
  | [] => .outOfFuel
  | o :: rest =>
      match subscription_iteration o.stopAtHead o.stopAfterPoll o.response with
      | .breakStop => .exited false
      | .again => subscription_run rest
      | .raised _ => .raised o.stopAtRaise
      | .jsonRaised => .raised o.stopAtRaise
      | .callbackInvoked _ =>
          if o.callbackThrows then .raised o.stopAtRaise
          else subscription_run rest

/-! ## `provision` -/

/-- The decoded body of a provisioning response:
`{"status", "credentialsType", "credentialsValue"}`. -/
structure ProvisionResponse where
  status : String
  credentialsType : String
  credentialsValue : String
  deriving DecidableEq, Repr

/-- A provisioning failure carrying the full decoded response body
(`TBProvisionFailure(device)`). -/
inductive ProvisionError where
  | provisionFailure (device : ProvisionResponse) : ProvisionError
  deriving DecidableEq, Repr

/-- The client configuration stored by `TBHTTPClient.__init__`. -/
structure ClientConfig where
  host : String
  token : String
  name : Option String
  deriving DecidableEq, Repr

/-- Model of `TBHTTPClient.provision` after `raise_for_status` passed and the body
decoded to `device`: on `status == "SUCCESS" and credentialsType == "ACCESS_TOKEN"` return a client bound to `credentialsValue`, else raise
`TBProvisionFailure(device)`. -/
def provision (host device_name : String) (device : ProvisionResponse) :
    Except ProvisionError ClientConfig :=
  if device.status = "SUCCESS" ∧ device.credentialsType = "ACCESS_TOKEN" then
    .ok { host := host, token := device.credentialsValue, name := some device_name }
  else
    .error (.provisionFailure device)

/-! ## `request_attributes` query encoding

`request_attributes` passes `{"client_keys": client_keys, "shared_keys": shared_keys}` — the Python lists themselves — as `params` to
`requests.Session.get`.  `requests` drops parameters whose value is `None`
and urlencodes a list value as one repeated `key=value` pair per element
(`urlencode(..., doseq=True)`). -/

/-- The encoding `requests` applies to a `params` dict whose values are `None` or
lists of strings, as the ordered list of `key=value` query pairs. -/
def encode_params (ps : List (String × Option (List String))) : List (String × String) :=
  ps.flatMap fun kv =>
    match kv.2 with
    | none => []
    | some vs => vs.map fun v => (kv.1, v)

/-- The `params` dict built by `request_attributes`. -/
def request_attributes_params (client_keys shared_keys : Option (List String)) :
    List (String × Option (List String)) :=
  [("client_keys", client_keys), ("shared_keys", shared_keys)]

/-- The query pairs the GET issued by `request_attributes` carries. -/
def request_attributes_query (client_keys shared_keys : Option (List String)) :
    List (String × String) :=
  encode_params (request_attributes_params client_keys shared_keys)

/-- Modelled from the spec (for comparison with the code's encoding, not
from the source): "Attribute request query params: `client_keys`,
`shared_keys` (comma-joined lists or empty)" — each parameter present once,
its value the comma-joined elements, empty when the list is absent. -/
def spec_comma_joined_query (client_keys shared_keys : Option (List String)) :
    List (String × String) :=
  [("client_keys", String.intercalate "," (client_keys.getD [])),
   ("shared_keys", String.intercalate "," (shared_keys.getD []))]

/-! ## Helper lemmas -/

/-- Updating a key that is absent appends the binding at the end. -/
theorem Dict.update_eq_append_of_lookup_none (d : Dict) (k : String) (v : J)
    (h : d.lookup k = none) : d.update k v = d ++ [(k, v)] := by
  induction d with
  | nil => rfl
  | cons kv rest ih =>
      obtain ⟨k₁, v₁⟩ := kv
      rw [Dict.lookup_cons] at h
      by_cases hk : k₁ = k
      · simp [hk] at h
      · simp [hk] at h
        simp [Dict.update, hk, ih h]

/-- Popping a key bound to `e` and updating it back restores the original
key-value mapping (the binding moves to the end, as in Python dicts). -/
theorem Dict.lookup_restore (d : Dict) (k : String) (e : J)
    (h : d.lookup k = some e) (k₁ : String) :
    ((d.erase k).update k e).lookup k₁ = d.lookup k₁ := by
  rw [Dict.update_eq_append_of_lookup_none _ _ _ (Dict.lookup_erase_self d k)]
  rw [Dict.lookup_append_single]
  by_cases hk : k₁ = k
  · subst hk
    simp [Dict.lookup_erase_self, h]
  · rw [Dict.lookup_erase_ne d k k₁ hk]
    cases hd : d.lookup k₁ with
    | some v => simp
    | none =>
        simp
        exact fun h₁ => hk h₁.symm

/-- Mapping over an `Except` sends errors to themselves and successes to successes. -/
theorem except_map_error_iff {α β γ : Type} (f : α → β) (x : Except γ α) (e : γ) :
    Except.map f x = .error e ↔ x = .error e := by
  cases x <;> simp [Except.map]

/-! ## The claims -/

/-- Claim C1: For every task dequeued by the publish worker (a dict whose
`endpoint` key is bound), either the delivery attempt succeeds and the task
is discarded (published to its endpoint, not re-enqueued), or the attempt
raises and the same task — its endpoint field restored, binding the same
keys to the same values — is re-enqueued at the tail of the publish queue
before the worker continues; a dequeued task is never dropped on a failed
attempt. -/
theorem C1_dequeued_task_published_or_requeued (task : Dict) (rest : List Dict)
    (stop : Bool) (e : J) (h : task.lookup "endpoint" = some e) :
    publish_worker_iteration true stop (task :: rest) =
      .published (task.erase "endpoint") e rest ∧
    ∃ t, publish_worker_iteration false stop (task :: rest) = .requeued (rest ++ [t]) ∧
      ∀ k, t.lookup k = task.lookup k := by
  refine ⟨?_, (task.erase "endpoint").update "endpoint" e, ?_, ?_⟩
  · simp [publish_worker_iteration, Dict.pop, h]
  · simp [publish_worker_iteration, Dict.pop, h]
  · exact Dict.lookup_restore task "endpoint" e h

/-- Witness for C1 at the concrete task
`{"values": {}, "endpoint": "telemetry"}` with an empty remaining queue. -/
theorem C1_witness :
    ([("values", J.obj []), ("endpoint", J.str "telemetry")] : Dict).lookup "endpoint"
        = some (J.str "telemetry") ∧
    publish_worker_iteration true false
        [[("values", J.obj []), ("endpoint", J.str "telemetry")]] =
      .published [("values", J.obj [])] (J.str "telemetry") [] := by
  have h : ([("values", J.obj []), ("endpoint", J.str "telemetry")] : Dict).lookup "endpoint"
      = some (J.str "telemetry") := rfl
  refine ⟨h, ?_⟩
  have hpub := (C1_dequeued_task_published_or_requeued
    [("values", J.obj []), ("endpoint", J.str "telemetry")] [] false (J.str "telemetry") h).1
  exact hpub

/-- Counterexample to claim C2: The claim says a start operation on an
already-running worker is a failure-free no-op.  It is neither: on a worker
whose thread was already started (and with a stop request pending), both
`start_publish_worker` and `subscribe_to_attributes`/`subscribe_to_rpc`
clear the stop event and then raise `RuntimeError` from
`threading.Thread.start`. -/
theorem C2_counterexample :
    start_publish_worker ⟨⟨true⟩, true, []⟩ =
      (⟨⟨true⟩, false, []⟩, .error .runtimeError) ∧
    subscribe none ⟨⟨true⟩, true, none⟩ =
      (⟨⟨true⟩, false, none⟩, .error .runtimeError) :=
  ⟨rfl, rfl⟩

/-- Amended claim C2: Calling a start operation when the role's thread has
already been started raises `RuntimeError` (after clearing the stop event
and, for subscriptions, registering any supplied callback) rather than
silently doing nothing; it never spawns a second consumer thread — the
thread field is untouched, and a spawn (`Thread.start` succeeding) only
ever happens on a thread not yet started — so at most one consumer thread
per worker role still holds. -/
theorem C2_amended_start_raises_never_spawns_second :
    (∀ w : PublishWorker, w.thread.started = true →
      (start_publish_worker w).2 = .error .runtimeError ∧
      (start_publish_worker w).1.thread = w.thread) ∧
    (∀ (cb : Option Nat) (w : SubWorker), w.thread.started = true →
      (subscribe cb w).2 = .error .runtimeError ∧
      (subscribe cb w).1.thread = w.thread) ∧
    (∀ t t₁ : PyThread, t.start = .ok t₁ → t.started = false) := by
  refine ⟨?_, ?_, ?_⟩
  · intro w h
    constructor <;> simp [start_publish_worker, PyThread.start, h]
  · intro cb w h
    cases cb <;> constructor <;> simp [subscribe, PyThread.start, h]
  · intro t t₁ h
    by_cases hs : t.started = true
    · simp [PyThread.start, hs] at h
    · simpa using hs

/-- Witness for amended C2 at concrete already-started workers. -/
theorem C2_amended_witness :
    (start_publish_worker ⟨⟨true⟩, false, []⟩).2 = .error .runtimeError ∧
    (subscribe (some 7) ⟨⟨true⟩, false, none⟩).2 = .error .runtimeError :=
  ⟨(C2_amended_start_raises_never_spawns_second.1 ⟨⟨true⟩, false, []⟩ rfl).1,
   (C2_amended_start_raises_never_spawns_second.2.1 (some 7) ⟨⟨true⟩, false, none⟩ rfl).1⟩

/-- Claim C3: `test_connection` never raises: for every transport outcome it
returns a boolean (the three transport error kinds — timeout, connection
failure, HTTP status error — are all caught); in particular it returns
`False` on a connection error and `True` on a 2xx response with an empty
body. -/
theorem C3_test_connection_returns_bool :
    (∀ o : PostOutcome, ∃ b, test_connection o = .ok b) ∧
    test_connection .connError = .ok false ∧
    test_connection (.response ⟨200, none⟩) = .ok true := by
  refine ⟨?_, rfl, rfl⟩
  intro o
  cases o with
  | timeout => exact ⟨false, rfl⟩
  | connError => exact ⟨false, rfl⟩
  | response r =>
      by_cases h : 400 ≤ r.status ∧ r.status < 600
      · exact ⟨false, by simp [test_connection, publish_data, raise_for_status, h]⟩
      · exact ⟨true, by simp [test_connection, publish_data, raise_for_status, h]⟩

/-- Counterexample to claim C4: The claim says every non-success status other
than 408/504 terminates the subscription loop by raising before the
callback runs.  A 304 response with a decodable body (`{}`) is not a
success (not in 2xx) and is neither 408 nor 504, yet `raise_for_status`
raises only for 400..599 and `response.json()` succeeds on the body, so
the loop proceeds to invoke the callback instead of raising. -/
theorem C4_counterexample :
    subscription_iteration false false ⟨304, some (J.obj [])⟩ =
      .callbackInvoked (J.obj []) ∧
    ¬ (200 ≤ 304 ∧ 304 < 300) ∧ (304 : Nat) ≠ 408 ∧ (304 : Nat) ≠ 504 :=
  ⟨rfl, by decide, by decide, by decide⟩

/-- Amended claim C4: In a subscription-loop iteration with the stop event
clear, status 408 or 504 continues the loop without invoking the callback
and without raising; a status in 400..599 other than 408 and 504 raises
(terminating the loop) before the callback is invoked; for a status outside
400..599 (2xx, but also 1xx and 3xx such as 304) no HTTP-status error is
raised: if the body does not decode (empty content), `response.json()`
raises a JSON decode error before the callback is invoked, and otherwise
the callback is invoked with the decoded body. -/
theorem C4_amended_subscription_status_dispatch (r : Response) :
    ((r.status = 408 ∨ r.status = 504) → subscription_iteration false false r = .again) ∧
    (400 ≤ r.status → r.status < 600 → r.status ≠ 408 → r.status ≠ 504 →
      subscription_iteration false false r = .raised (.httpError r.status)) ∧
    ((r.status < 400 ∨ 600 ≤ r.status) → r.content = none →
      subscription_iteration false false r = .jsonRaised) ∧
    ((r.status < 400 ∨ 600 ≤ r.status) → ∀ body, r.content = some body →
      subscription_iteration false false r = .callbackInvoked body) := by
  refine ⟨?_, ?_, ?_, ?_⟩
  · rintro (h | h) <;> simp [subscription_iteration, h]
  · intro h₁ h₂ h₃ h₄
    simp [subscription_iteration, h₃, h₄, raise_for_status, h₁, h₂]
  · intro h hc
    have h₃ : r.status ≠ 408 := by omega
    have h₄ : r.status ≠ 504 := by omega
    have h₅ : ¬ (400 ≤ r.status ∧ r.status < 600) := by omega
    simp [subscription_iteration, h₃, h₄, raise_for_status, h₅, hc]
  · intro h body hc
    have h₃ : r.status ≠ 408 := by omega
    have h₄ : r.status ≠ 504 := by omega
    have h₅ : ¬ (400 ≤ r.status ∧ r.status < 600) := by omega
    simp [subscription_iteration, h₃, h₄, raise_for_status, h₅, hc]

/-- Witness for amended C4 at status 500 (raise), 408 (benign), 304 with a
decodable body (callback) and 200 with an empty body (JSON decode raise). -/
theorem C4_amended_witness :
    subscription_iteration false false ⟨500, none⟩ = .raised (.httpError 500) ∧
    subscription_iteration false false ⟨408, none⟩ = .again ∧
    subscription_iteration false false ⟨304, some (J.obj [])⟩ =
      .callbackInvoked (J.obj []) ∧
    subscription_iteration false false ⟨200, none⟩ = .jsonRaised :=
  ⟨(C4_amended_subscription_status_dispatch ⟨500, none⟩).2.1
      (by decide) (by decide) (by decide) (by decide),
   (C4_amended_subscription_status_dispatch ⟨408, none⟩).1 (Or.inl rfl),
   (C4_amended_subscription_status_dispatch ⟨304, some (J.obj [])⟩).2.2.2
      (Or.inl (by decide)) (J.obj []) rfl,
   (C4_amended_subscription_status_dispatch ⟨200, none⟩).2.2.1
      (Or.inl (by decide)) rfl⟩

/-- Claim C5: For every provisioning response body with status `SUCCESS` and
credentialsType `ACCESS_TOKEN`, `provision` returns a client whose token
equals the credentialsValue of the body; for every other status/type
combination it raises `TBProvisionFailure` carrying the full decoded
response body. -/
theorem C5_provision_dispatch (host device_name : String) (device : ProvisionResponse) :
    (device.status = "SUCCESS" → device.credentialsType = "ACCESS_TOKEN" →
      provision host device_name device =
        .ok { host := host, token := device.credentialsValue, name := some device_name }) ∧
    (¬ (device.status = "SUCCESS" ∧ device.credentialsType = "ACCESS_TOKEN") →
      provision host device_name device = .error (.provisionFailure device)) := by
  constructor
  · intro h₁ h₂
    simp [provision, h₁, h₂]
  · intro h
    simp [provision, h]

/-- Witness for C5 at a successful and at a failed provisioning body. -/
theorem C5_witness :
    provision "http://tb" "dev" ⟨"SUCCESS", "ACCESS_TOKEN", "abc"⟩ =
      .ok ⟨"http://tb", "abc", some "dev"⟩ ∧
    provision "http://tb" "dev" ⟨"FAILURE", "ACCESS_TOKEN", ""⟩ =
      .error (.provisionFailure ⟨"FAILURE", "ACCESS_TOKEN", ""⟩) :=
  ⟨(C5_provision_dispatch "http://tb" "dev" ⟨"SUCCESS", "ACCESS_TOKEN", "abc"⟩).1 rfl rfl,
   (C5_provision_dispatch "http://tb" "dev" ⟨"FAILURE", "ACCESS_TOKEN", ""⟩).2 (by decide)⟩

/-- Claim C6: For every telemetry value `tel` and explicit timestamp (`micros`
microseconds since the epoch), `send_telemetry` with `queued=False`
performs exactly one synchronous publish, whose body is
`{"ts": <timestamp truncated to epoch-milliseconds>, "values": tel}`, puts
nothing on the queue, and propagates exactly the transport's error to the
caller. -/
theorem C6_send_telemetry_sync (tel : J) (micros : Nat) (o : PostOutcome) :
    (send_telemetry tel micros false o).posts =
      [(telemetry_payload tel micros, "telemetry")] ∧
    (send_telemetry tel micros false o).queuePuts = [] ∧
    telemetry_payload tel micros = [("ts", .num (micros / 1000)), ("values", tel)] ∧
    (∀ e, (send_telemetry tel micros false o).result = .error e ↔
      publish_data o = .error e) := by
  refine ⟨rfl, rfl, rfl, ?_⟩
  intro e
  simp [send_telemetry, except_map_error_iff]

/-- Counterexample to claim C7: The claim says the stop flag is cleared on every
exit, including exits by unrecoverable error.  In the run below the poll
returns status 500 (the loop terminates by the raise of
`raise_for_status`), a stop request arrives after the post-poll check, and
the worker exits with the stop flag still set: the `stop_event.clear()`
after the loop is skipped when an exception escapes it. -/
theorem C7_counterexample :
    subscription_run [⟨false, ⟨500, none⟩, false, false, true⟩] = .raised true := rfl

/-- Amended claim C7: The stop flag is cleared on every normal exit of the
subscription loop (stop observed at either check); on an exit by exception
(non-benign HTTP status or callback exception) the trailing clear is
skipped, so the flag merely retains its current value — it is clear at exit
only when no concurrent stop request set it during the failing
iteration. -/
theorem C7_amended_stop_flag_on_exit (obs : List SubObs) :
    (∀ b, subscription_run obs = .exited b → b = false) ∧
    ((∀ o ∈ obs, o.stopAtRaise = false) →
      ∀ b, subscription_run obs = .raised b → b = false) := by
  induction obs with
  | nil =>
      constructor
      · intro b h
        simp [subscription_run] at h
      · intro _ b h
        simp [subscription_run] at h
  | cons o rest ih =>
      have hrun : subscription_run (o :: rest) =
          match subscription_iteration o.stopAtHead o.stopAfterPoll o.response with
          | .breakStop => .exited false
          | .again => subscription_run rest
          | .raised _ => .raised o.stopAtRaise
          | .jsonRaised => .raised o.stopAtRaise
          | .callbackInvoked _ =>
              if o.callbackThrows then .raised o.stopAtRaise
              else subscription_run rest := rfl
      constructor
      · intro b h
        rw [hrun] at h
        cases hit : subscription_iteration o.stopAtHead o.stopAfterPoll o.response with
        | breakStop =>
            rw [hit] at h
            injection h with hb
            exact hb.symm
        | again =>
            rw [hit] at h
            exact ih.1 b h
        | raised e =>
            rw [hit] at h
            simp at h
        | jsonRaised =>
            rw [hit] at h
            simp at h
        | callbackInvoked body =>
            rw [hit] at h
            by_cases hcb : o.callbackThrows
            · simp [hcb] at h
            · simp [hcb] at h
              exact ih.1 b h
      · intro hall b h
        have ho : o.stopAtRaise = false := hall o (by simp)
        have hrest : ∀ o₁ ∈ rest, o₁.stopAtRaise = false :=
          fun o₁ h₁ => hall o₁ (by simp [h₁])
        rw [hrun] at h
        cases hit : subscription_iteration o.stopAtHead o.stopAfterPoll o.response with
        | breakStop =>
            rw [hit] at h
            simp at h
        | again =>
            rw [hit] at h
            exact ih.2 hrest b h
        | raised e =>
            rw [hit] at h
            injection h with hb
            rw [← hb]
            exact ho
        | jsonRaised =>
            rw [hit] at h
            injection h with hb
            rw [← hb]
            exact ho
        | callbackInvoked body =>
            rw [hit] at h
            by_cases hcb : o.callbackThrows
            · simp [hcb] at h
              rw [← h]
              exact ho
            · simp [hcb] at h
              exact ih.2 hrest b h

/-- Witness for amended C7: a run ending in a status-500 raise with no
concurrent stop request leaves the flag clear. -/
theorem C7_amended_witness :
    subscription_run [⟨false, ⟨500, none⟩, false, false, false⟩] = .raised false ∧
    (∀ o ∈ ([⟨false, ⟨500, none⟩, false, false, false⟩] : List SubObs),
      o.stopAtRaise = false) ∧
    false = false := by
  refine ⟨rfl, ?_, ?_⟩
  · intro o h
    simp at h
    subst h
    rfl
  · exact (C7_amended_stop_flag_on_exit
      [⟨false, ⟨500, none⟩, false, false, false⟩]).2
      (by
        intro o h
        simp at h
        subst h
        rfl)
      false rfl

/-- Claim C8: `stop_publish_worker` only sets the stop event — it performs no
join and no queue wait, so it does not block; once the stop event is set
and the queue is empty, the very next bounded dequeue-wait (the 1-second
`get` timeout, one polling interval) observes the flag and exits the loop;
and a task already dequeued is processed identically whether or not stop
was requested (the flag is only consulted on an empty-queue timeout). -/
theorem C8_stop_request_and_idle_exit :
    (∀ w : PublishWorker, stop_publish_worker w = { w with stop_event := true }) ∧
    (∀ ok : Bool, publish_worker_iteration ok true [] = .exitLoop) ∧
    (∀ (ok : Bool) (task : Dict) (rest : List Dict),
      publish_worker_iteration ok true (task :: rest) =
        publish_worker_iteration ok false (task :: rest)) :=
  ⟨fun _ => rfl, fun _ => rfl, fun _ _ _ => rfl⟩

/-- Counterexample to claim C9: The claim says the attribute-request query
carries `client_keys`/`shared_keys` as comma-joined values (empty when the
list is absent).  For `client_keys=["a","b"]` and absent `shared_keys` the
code's GET instead carries one repeated `client_keys` pair per element and
no `shared_keys` parameter at all: `requests` urlencodes a list value with
`doseq` and drops `None`-valued parameters. -/
theorem C9_counterexample :
    request_attributes_query (some ["a", "b"]) none =
      [("client_keys", "a"), ("client_keys", "b")] ∧
    spec_comma_joined_query (some ["a", "b"]) none =
      [("client_keys", "a,b"), ("shared_keys", "")] ∧
    request_attributes_query (some ["a", "b"]) none ≠
      spec_comma_joined_query (some ["a", "b"]) none := by
  refine ⟨rfl, rfl, ?_⟩
  decide

/-- Amended claim C9: The GET issued by `request_attributes` carries one
repeated `client_keys=v` query pair per element of the client-keys list
followed by one `shared_keys=v` pair per element of the shared-keys list;
an absent (`None`) list contributes no parameter at all. -/
theorem C9_amended_repeated_query_params (client_keys shared_keys : Option (List String)) :
    request_attributes_query client_keys shared_keys =
      ((client_keys.getD []).map fun v => ("client_keys", v)) ++
      ((shared_keys.getD []).map fun v => ("shared_keys", v)) := by
  cases client_keys <;> cases shared_keys <;>
    simp [request_attributes_query, request_attributes_params, encode_params]

/-- Claim C10: The task enqueued by `send_telemetry(tel, T, queued=True)` is
the synchronous payload with the `endpoint` routing key appended; when the
publish worker dequeues it, it pops that key and publishes exactly the body
that `send_telemetry(tel, T, queued=False)` posts synchronously, to the
`telemetry` endpoint — and the routing key does not occur in any published
body (the payload binds only `ts` and `values`). -/
theorem C10_queued_equals_sync_body (tel : J) (micros : Nat) (o : PostOutcome)
    (rest : List Dict) (stop : Bool) :
    (send_telemetry tel micros true o).queuePuts =
      [(telemetry_payload tel micros).update "endpoint" (.str "telemetry")] ∧
    publish_worker_iteration true stop
        ((telemetry_payload tel micros).update "endpoint" (.str "telemetry") :: rest) =
      .published (telemetry_payload tel micros) (.str "telemetry") rest ∧
    (send_telemetry tel micros false o).posts =
      [(telemetry_payload tel micros, "telemetry")] ∧
    (telemetry_payload tel micros).lookup "endpoint" = none ∧
    (send_telemetry tel micros true o).posts = [] :=
  ⟨rfl, rfl, rfl, rfl, rfl⟩

end TB
